import Mathlib

/-! Verification of the crawl core of the AIPoweredWebCrawler repository
(src/crawler.py, src/main.py). The pure predicates of the Pattern/Domain
Gate are embedded as Lean functions; the concurrent worker loop of
ProductCrawler.worker is embedded as a labelled transition system whose
atomic steps are the code segments between asyncio suspension points
(an asyncio event loop runs a coroutine uninterrupted between awaits). -/

/-- Model of Python substring containment (the `in` operator on `str`),
on the character list of a string: true iff the first list occurs as a
contiguous block inside the second. -/
def containsSub (pat : List Char) : List Char → Bool
  | [] => pat.isPrefixOf ([] : List Char)
  | c :: t => pat.isPrefixOf (c :: t) || containsSub pat t

/-- Substring containment agrees with the mathematical infix relation. -/
theorem containsSub_iff (pat l : List Char) : containsSub pat l = true ↔ pat <:+: l := by
  induction l with
  | nil =>
    simp [containsSub, List.isPrefixOf_iff_prefix, List.infix_nil, List.prefix_nil]
  | cons c t ih =>
    simp [containsSub, List.isPrefixOf_iff_prefix, List.infix_cons_iff, ih]

/-- Characters allowed in a URL scheme after its first letter, as in
urllib.parse (ASCII letters, digits, `+`, `-`, `.`). -/
def schemeChar (c : Char) : Bool :=
  c.isAlphanum || c == '+' || c == '-' || c == '.'

/-- Model of the scheme-splitting step of urllib.parse.urlsplit: when the
string has a colon preceded by a nonempty valid scheme, drop the scheme
and the colon, otherwise return the input unchanged. -/
def dropScheme (l : List Char) : List Char :=
  let pre := l.takeWhile (fun c => !(c == ':'))
  if pre.length = l.length then l
  else
    match pre with
    | [] => l
    | c :: cs => if c.isAlpha && cs.all schemeChar then l.drop (pre.length + 1) else l

/-- Model of the netloc component of urllib.parse.urlparse (an external
collaborator of src/crawler.py): the host part sits between `//` and the
next `/`, `?` or `#`; a URL with no `//` authority has an empty netloc;
`none` models the ValueError urlparse raises on an unbalanced IPv6
bracket in the netloc. -/
def extractNetloc (l : List Char) : Option (List Char) :=
  match dropScheme l with
  | '/' :: '/' :: rest =>
    let nl := rest.takeWhile (fun c => !(c == '/' || c == '?' || c == '#'))
    if (nl.contains '[' && !(nl.contains ']')) || (nl.contains ']' && !(nl.contains '[')) then
      none
    else
      some nl
  | _ => some []

/-- The netloc (host component) of a URL string, `none` on a parse error. -/
def netlocOf (url : String) : Option String :=
  (extractNetloc url.data).map (fun l => String.mk l)

/-- Model of `s.split('#')[0]` (src/crawler.py line 116): the characters
before the first `#`, i.e. the URL with any fragment suffix removed. -/
def stripFragment (s : String) : String :=
  String.mk (s.data.takeWhile (fun c => !(c == '#')))

/-- ProductCrawler.is_product_url (src/crawler.py lines 54-62): false when
no pattern is loaded (`None`, or the empty string, both falsy in Python),
otherwise Python substring containment of the pattern in the full URL. -/
def is_product_url (pattern : Option String) (url : String) : Bool :=
  match pattern with
  | none => false
  | some p => if p.isEmpty then false else containsSub p.data url.data

/-- ProductCrawler.is_same_domain (src/crawler.py lines 64-73): compare the
URL's netloc with the registered domain, accepting an exact match or a
`www.` prefix on either side; a netloc that fails to parse (ValueError,
caught in the source) yields false rather than an exception. -/
def is_same_domain (domain : String) (url : String) : Bool :=
  match netlocOf url with
  | none => false
  | some netloc =>
    netloc == domain || netloc == "www." ++ domain || "www." ++ netloc == domain

example : netlocOf "http://shop.test/a/b" = some "shop.test" := by decide
example : netlocOf "https://www.example.com/p/1?q=2" = some "www.example.com" := by decide
example : netlocOf "http://[bad/x" = none := by decide
example : netlocOf "nourl" = some "" := by decide
example : is_same_domain "example.com" "http://example.com/x" = true := by decide
example : is_same_domain "example.com" "http://www.example.com/x" = true := by decide
example : is_same_domain "www.example.com" "http://example.com/x" = true := by decide
example : is_same_domain "example.com" "http://other.com/x" = false := by decide
example : is_product_url (some "/p/") "http://shop.test/p/123" = true := by decide
example : is_product_url (some "/p/") "http://shop.test/pnew/123" = false := by decide
example : is_product_url none "http://shop.test/p/123" = false := by decide

/-- Static configuration of one crawl run: the seed URL, the domain parsed
from it, the loaded product pattern, the two budgets passed to
ProductCrawler.crawl, and a model of the external urllib.parse.urljoin
collaborator (`none` models the ValueError caught at src/crawler.py
line 117). -/
structure Config where
  start_url : String
  domain : String
  pattern : String
  maxPages : Nat
  maxConcurrent : Nat
  join : String → String → Option String

/-- Position of one worker coroutine between asyncio suspension points:
at the top of the while loop, blocked in queue.get after passing the
loop condition, holding a dequeued item, fetching a committed URL,
iterating over the extracted hrefs, or terminated. -/
inductive WStatus where
  | idle : WStatus
  | waiting : WStatus
  | gotUrl : Option String → WStatus
  | fetching : String → WStatus
  | extracting : String → List String → WStatus
  | finished : WStatus
deriving DecidableEq, Repr

/-- Shared mutable state of ProductCrawler during a crawl, plus the local
position of every worker task. `output` is the sequence of
`(domain, url)` records appended to product_urls.txt; `failedWrites` and
`classified` are specification ghost fields counting failed sink appends
and listing every URL on which the product classifier fired; `tasksDone`
counts queue.task_done calls. -/
structure CrawlState where
  visited : List String
  queue : List (Option String)
  maxPagesReached : Bool
  pagesCrawled : Nat
  productsFound : Nat
  output : List (String × String)
  failedWrites : Nat
  classified : List String
  tasksDone : Nat
  workers : List WStatus
deriving DecidableEq, Repr

/-- Model of Python's str.startswith on the character list of a string. -/
def strStartsWith (s pre : String) : Bool :=
  pre.data.isPrefixOf s.data

/-- The negation of the skip condition at src/crawler.py line 86, which is
also the admission filter for each resolved href at line 120: the URL is
not yet visited, is same-domain, and starts with `http`. -/
def passesFilters (cfg : Config) (s : CrawlState) (u : String) : Bool :=
  !(s.visited.contains u) && is_same_domain cfg.domain u && strStartsWith u "http"

/-- Number of entries of `self.active_tasks`: every launched worker task
that has not yet terminated. -/
def activeCount (s : CrawlState) : Nat :=
  (s.workers.filter (fun w => !(w == WStatus.finished))).length

/-- One iteration of the per-href loop of ProductCrawler.worker
(src/crawler.py lines 111-131), acting on the shared crawl state. A falsy
(empty) href and an unresolvable href are skipped; otherwise the joined
URL is fragment-stripped and filtered; a product link increments
products_found_count and appends a `(domain, url)` record when the sink
write succeeds (`writeOk` models the try/except around the aiofiles
write); a non-product link is enqueued when the budget flag is unset and
pagesCrawled is below maxPages. -/
def processHref (cfg : Config) (s : CrawlState) (pageUrl href : String) (writeOk : Bool) :
    CrawlState :=
  if href.isEmpty then s
  else
    match cfg.join pageUrl href with
    | none => s
    | some j =>
      if passesFilters cfg s (stripFragment j) then
        if is_product_url (some cfg.pattern) (stripFragment j) then
          if writeOk then
            { s with productsFound := s.productsFound + 1,
                     classified := s.classified ++ [stripFragment j],
                     output := s.output ++ [(cfg.domain, stripFragment j)] }
          else
            { s with productsFound := s.productsFound + 1,
                     classified := s.classified ++ [stripFragment j],
                     failedWrites := s.failedWrites + 1 }
        else
          if !s.maxPagesReached && s.pagesCrawled < cfg.maxPages then
            { s with queue := s.queue ++ [some (stripFragment j)] }
          else s
      else s

/-- Labelled transition relation of the crawl: each constructor is one
atomic segment of ProductCrawler.worker (src/crawler.py lines 75-155)
between asyncio suspension points, or the orchestrator flood of
ProductCrawler.crawl lines 191-192. `i` is the index of the acting
worker task. -/
inductive Step (cfg : Config) : CrawlState → CrawlState → Prop where
  | checkLoop (s : CrawlState) (i : Nat)
      (hw : s.workers.get? i = some WStatus.idle)
      (hf : s.maxPagesReached = false) :
      Step cfg s { s with workers := s.workers.set i WStatus.waiting }
  | stopLoop (s : CrawlState) (i : Nat)
      (hw : s.workers.get? i = some WStatus.idle)
      (hf : s.maxPagesReached = true) :
      Step cfg s { s with workers := s.workers.set i WStatus.finished }
  | dequeue (s : CrawlState) (i : Nat) (q : Option String) (rest : List (Option String))
      (hw : s.workers.get? i = some WStatus.waiting)
      (hq : s.queue = q :: rest) :
      Step cfg s { s with queue := rest, workers := s.workers.set i (WStatus.gotUrl q) }
  | gotStop (s : CrawlState) (i : Nat)
      (hw : s.workers.get? i = some (WStatus.gotUrl none)) :
      Step cfg s { s with tasksDone := s.tasksDone + 1,
                          workers := s.workers.set i WStatus.finished }
  | skipUrl (s : CrawlState) (i : Nat) (u : String)
      (hw : s.workers.get? i = some (WStatus.gotUrl (some u)))
      (hs : passesFilters cfg s u = false) :
      Step cfg s { s with tasksDone := s.tasksDone + 1,
                          workers := s.workers.set i WStatus.idle }
  | observeBudget (s : CrawlState) (i : Nat) (u : String)
      (hw : s.workers.get? i = some (WStatus.gotUrl (some u)))
      (hs : passesFilters cfg s u = true)
      (hb : cfg.maxPages ≤ s.pagesCrawled) :
      Step cfg s { s with maxPagesReached := true,
                          tasksDone := s.tasksDone + 1,
                          queue := s.queue ++ List.replicate (activeCount s) none,
                          workers := s.workers.set i WStatus.idle }
  | commit (s : CrawlState) (i : Nat) (u : String)
      (hw : s.workers.get? i = some (WStatus.gotUrl (some u)))
      (hs : passesFilters cfg s u = true)
      (hb : s.pagesCrawled < cfg.maxPages) :
      Step cfg s { s with visited := u :: s.visited,
                          pagesCrawled := s.pagesCrawled + 1,
                          workers := s.workers.set i (WStatus.fetching u) }
  | fetchFail (s : CrawlState) (i : Nat) (u : String)
      (hw : s.workers.get? i = some (WStatus.fetching u)) :
      Step cfg s { s with tasksDone := s.tasksDone + 1,
                          workers := s.workers.set i WStatus.idle }
  | fetchOk (s : CrawlState) (i : Nat) (u : String) (hrefs : List String)
      (hw : s.workers.get? i = some (WStatus.fetching u)) :
      Step cfg s { s with workers := s.workers.set i (WStatus.extracting u hrefs) }
  | stepHref (s : CrawlState) (i : Nat) (u h : String) (rest : List String) (writeOk : Bool)
      (hw : s.workers.get? i = some (WStatus.extracting u (h :: rest))) :
      Step cfg s { processHref cfg s u h writeOk with
                   workers := s.workers.set i (WStatus.extracting u rest) }
  | extractDone (s : CrawlState) (i : Nat) (u : String)
      (hw : s.workers.get? i = some (WStatus.extracting u [])) :
      Step cfg s { s with tasksDone := s.tasksDone + 1,
                          workers := s.workers.set i WStatus.idle }
  | orchFlood (s : CrawlState) :
      Step cfg s { s with queue := s.queue ++ List.replicate cfg.maxConcurrent none }

/-- State at the top of ProductCrawler.crawl after the counters are reset,
the seed URL is enqueued, and the maxConcurrent worker tasks are created
(src/crawler.py lines 164-186). -/
def initState (cfg : Config) : CrawlState :=
  { visited := [], queue := [some cfg.start_url], maxPagesReached := false,
    pagesCrawled := 0, productsFound := 0, output := [], failedWrites := 0,
    classified := [], tasksDone := 0,
    workers := List.replicate cfg.maxConcurrent WStatus.idle }

/-- States reachable in some interleaving of a crawl run. -/
inductive Reach (cfg : Config) : CrawlState → Prop where
  | start : Reach cfg (initState cfg)
  | next : ∀ {s s' : CrawlState}, Reach cfg s → Step cfg s s' → Reach cfg s'

/-- Processing one href either leaves the shared state unchanged, records
a product link (with a successful or a failed write), or enqueues a
non-product link; in the three mutating branches the admission filter
holds for the resolved, fragment-stripped URL. -/
theorem processHref_cases (cfg : Config) (s : CrawlState) (pageUrl href : String)
    (writeOk : Bool) :
    processHref cfg s pageUrl href writeOk = s ∨
    (∃ fu, passesFilters cfg s fu = true ∧
      (processHref cfg s pageUrl href writeOk =
          { s with productsFound := s.productsFound + 1,
                   classified := s.classified ++ [fu],
                   output := s.output ++ [(cfg.domain, fu)] } ∨
       processHref cfg s pageUrl href writeOk =
          { s with productsFound := s.productsFound + 1,
                   classified := s.classified ++ [fu],
                   failedWrites := s.failedWrites + 1 } ∨
       processHref cfg s pageUrl href writeOk =
          { s with queue := s.queue ++ [some fu] })) := by
  unfold processHref
  split
  · exact Or.inl rfl
  · split
    · exact Or.inl rfl
    · split
      · split
        · split
          · exact Or.inr ⟨_, by assumption, Or.inl rfl⟩
          · exact Or.inr ⟨_, by assumption, Or.inr (Or.inl rfl)⟩
        · split
          · exact Or.inr ⟨_, by assumption, Or.inr (Or.inr rfl)⟩
          · exact Or.inl rfl
      · exact Or.inl rfl

/-- The href loop never touches the page counter, the visited set, the
shutdown flag, the task-done count, or the worker list. -/
theorem processHref_frame (cfg : Config) (s : CrawlState) (pageUrl href : String)
    (writeOk : Bool) :
    (processHref cfg s pageUrl href writeOk).pagesCrawled = s.pagesCrawled ∧
    (processHref cfg s pageUrl href writeOk).visited = s.visited ∧
    (processHref cfg s pageUrl href writeOk).maxPagesReached = s.maxPagesReached ∧
    (processHref cfg s pageUrl href writeOk).tasksDone = s.tasksDone ∧
    (processHref cfg s pageUrl href writeOk).workers = s.workers := by
  rcases processHref_cases cfg s pageUrl href writeOk with he | ⟨fu, _, he | he | he⟩ <;>
    rw [he] <;> exact ⟨rfl, rfl, rfl, rfl, rfl⟩

/-- A URL passing the admission filter is not in the visited set. -/
theorem passesFilters_not_visited {cfg : Config} {s : CrawlState} {u : String}
    (h : passesFilters cfg s u = true) : u ∉ s.visited := by
  unfold passesFilters at h
  intro hmem
  simp [List.contains, List.elem_eq_true_of_mem hmem] at h
  exact h.1.1 hmem

/-- Every step preserves the page budget bound: the check at
src/crawler.py line 90 and the increment at line 102 sit in the same
atomic segment (no await between them), so a commit fires only below the
budget. -/
theorem step_budget {cfg : Config} {s s' : CrawlState} (h : Step cfg s s')
    (hle : s.pagesCrawled ≤ cfg.maxPages) : s'.pagesCrawled ≤ cfg.maxPages := by
  cases h with
  | commit i u hw hs hb => exact hb
  | stepHref i u h rest writeOk hw =>
      exact ((processHref_frame cfg s u h writeOk).1).trans_le hle
  | checkLoop i hw hf => exact hle
  | stopLoop i hw hf => exact hle
  | dequeue i q rest hw hq => exact hle
  | gotStop i hw => exact hle
  | skipUrl i u hw hs => exact hle
  | observeBudget i u hw hs hb => exact hle
  | fetchFail i u hw => exact hle
  | fetchOk i u hrefs hw => exact hle
  | extractDone i u hw => exact hle
  | orchFlood => exact hle

/-- Model of urllib.parse.urljoin (external collaborator) restricted to
the absolute hrefs appearing in the concrete runs below: urljoin returns
an absolute href unchanged. -/
def joinAbs : String → String → Option String := fun _ href => some href

/-- Concrete configuration used by the witness theorems. -/
def cfgW : Config :=
  { start_url := "http://shop.test/", domain := "shop.test", pattern := "/p/",
    maxPages := 2, maxConcurrent := 1, join := joinAbs }

/-- C1: in every reachable state of every crawl run, pagesCrawled never
exceeds maxPages. The budget check (src/crawler.py line 90) and the
increment (line 102) lie in one atomic segment of the cooperative event
loop, so a worker commits to a fetch only while pagesCrawled < maxPages,
and any step that raises the counter starts strictly below the budget and
raises it by exactly one. -/
theorem claim_C1 :
    (∀ (cfg : Config) (s : CrawlState), Reach cfg s → s.pagesCrawled ≤ cfg.maxPages) ∧
    (∀ (cfg : Config) (s s' : CrawlState), Step cfg s s' →
      s.pagesCrawled < s'.pagesCrawled →
      s.pagesCrawled < cfg.maxPages ∧ s'.pagesCrawled = s.pagesCrawled + 1) := by
  constructor
  · intro cfg s h
    induction h with
    | start => exact Nat.zero_le _
    | next hr hstep ih => exact step_budget hstep ih
  · intro cfg s s' hstep hlt
    cases hstep with
    | commit i u hw hs hb => exact ⟨hb, rfl⟩
    | stepHref i u h rest writeOk hw =>
        have h2 : s.pagesCrawled < (processHref cfg s u h writeOk).pagesCrawled := hlt
        rw [(processHref_frame cfg s u h writeOk).1] at h2
        exact absurd h2 (Nat.lt_irrefl _)
    | checkLoop i hw hf => exact absurd hlt (Nat.lt_irrefl _)
    | stopLoop i hw hf => exact absurd hlt (Nat.lt_irrefl _)
    | dequeue i q rest hw hq => exact absurd hlt (Nat.lt_irrefl _)
    | gotStop i hw => exact absurd hlt (Nat.lt_irrefl _)
    | skipUrl i u hw hs => exact absurd hlt (Nat.lt_irrefl _)
    | observeBudget i u hw hs hb => exact absurd hlt (Nat.lt_irrefl _)
    | fetchFail i u hw => exact absurd hlt (Nat.lt_irrefl _)
    | fetchOk i u hrefs hw => exact absurd hlt (Nat.lt_irrefl _)
    | extractDone i u hw => exact absurd hlt (Nat.lt_irrefl _)
    | orchFlood => exact absurd hlt (Nat.lt_irrefl _)

/-- Witness for C1 at the initial state of the concrete configuration. -/
theorem claim_C1_witness : (initState cfgW).pagesCrawled ≤ cfgW.maxPages :=
  claim_C1.1 cfgW (initState cfgW) Reach.start

/-- C9: in every reachable state, products_found_count equals the number
of records actually appended to the sink plus the number of failed
appends: the counter is bumped once per product classification
(src/crawler.py line 122) before the write is attempted, and a failed
write (caught at line 127) leaves the counter bumped with no record. -/
theorem claim_C9 : ∀ (cfg : Config) (s : CrawlState), Reach cfg s →
    s.productsFound = s.output.length + s.failedWrites := by
  intro cfg s h
  induction h with
  | start => rfl
  | next hr hstep ih =>
    cases hstep with
    | stepHref i u h rest writeOk hw =>
        show (processHref cfg _ u h writeOk).productsFound =
          (processHref cfg _ u h writeOk).output.length +
            (processHref cfg _ u h writeOk).failedWrites
        rcases processHref_cases cfg _ u h writeOk with he | ⟨fu, hp, he | he | he⟩ <;>
          rw [he] <;>
          (try simp only [List.length_append, List.length_cons, List.length_nil]) <;>
          omega
    | checkLoop i hw hf => exact ih
    | stopLoop i hw hf => exact ih
    | dequeue i q rest hw hq => exact ih
    | gotStop i hw => exact ih
    | skipUrl i u hw hs => exact ih
    | observeBudget i u hw hs hb => exact ih
    | commit i u hw hs hb => exact ih
    | fetchFail i u hw => exact ih
    | fetchOk i u hrefs hw => exact ih
    | extractDone i u hw => exact ih
    | orchFlood => exact ih

/-- State of the witness run for C9: the seed page was committed and
fetched, and its single product link was classified while the sink write
failed, so productsFound is 1 with an empty output file. -/
def c9State : CrawlState :=
  { visited := ["http://shop.test/"], queue := [], maxPagesReached := false,
    pagesCrawled := 1, productsFound := 1, output := [], failedWrites := 1,
    classified := ["http://shop.test/p/1"], tasksDone := 0,
    workers := [WStatus.extracting "http://shop.test/" []] }

/-- The C9 witness state is reachable: commit the seed, fetch it, and
process its product href with a failing sink write. -/
theorem c9State_reach : Reach cfgW c9State := by
  have h0 : Reach cfgW (initState cfgW) := Reach.start
  have h1 := Reach.next h0 (Step.checkLoop (initState cfgW) 0 rfl rfl)
  have h2 := Reach.next h1 (Step.dequeue _ 0 (some "http://shop.test/") [] rfl rfl)
  have h3 := Reach.next h2 (Step.commit _ 0 "http://shop.test/" rfl (by decide) (by decide))
  have h4 := Reach.next h3
    (Step.fetchOk _ 0 "http://shop.test/" ["http://shop.test/p/1"] rfl)
  have h5 := Reach.next h4
    (Step.stepHref _ 0 "http://shop.test/" "http://shop.test/p/1" [] false rfl)
  exact h5

/-- Witness for C9: after a product classification whose sink write
failed, the counter exceeds the number of records in the file by one. -/
theorem claim_C9_witness :
    c9State.productsFound = c9State.output.length + c9State.failedWrites :=
  claim_C9 cfgW c9State c9State_reach

/-- Worker positions possible before any page has been committed: no
worker is fetching or extracting, and any held item is the seed URL or a
STOP sentinel. -/
def seedWorkerOk (cfg : Config) (w : WStatus) : Prop :=
  w = WStatus.idle ∨ w = WStatus.waiting ∨ w = WStatus.finished ∨
  w = WStatus.gotUrl none ∨ w = WStatus.gotUrl (some cfg.start_url)

/-- Crawl phase before the seed URL has been committed: the frontier holds
only the seed URL or STOP sentinels, and every worker is in a
pre-commit position. -/
def preStart (cfg : Config) (s : CrawlState) : Prop :=
  (∀ q ∈ s.queue, q = some cfg.start_url ∨ q = none) ∧
  (∀ w ∈ s.workers, seedWorkerOk cfg w)

/-- Inductive invariant for C10: the seed URL never appears in a sink
record nor among the classified links, because links are only examined
after their page's own commit, and the first commit of any run is the
seed URL itself. -/
def seedSafe (cfg : Config) (s : CrawlState) : Prop :=
  (∀ r ∈ s.output, r.2 ≠ cfg.start_url) ∧
  cfg.start_url ∉ s.classified ∧
  (cfg.start_url ∈ s.visited ∨ preStart cfg s)

/-- Setting one worker to an allowed position keeps every worker allowed. -/
theorem preStart_setWorker {cfg : Config} {s : CrawlState} (hp : preStart cfg s)
    {i : Nat} {v : WStatus} (hv : seedWorkerOk cfg v) :
    ∀ w ∈ s.workers.set i v, seedWorkerOk cfg w := by
  intro w hw
  rcases List.mem_or_eq_of_mem_set hw with hmem | rfl
  · exact hp.2 w hmem
  · exact hv

/-- Every step of the crawl preserves the seed-safety invariant. -/
theorem seedSafe_step {cfg : Config} {s s' : CrawlState} (h : Step cfg s s')
    (hs : seedSafe cfg s) : seedSafe cfg s' := by
  obtain ⟨ho, hc, hvp⟩ := hs
  cases h with
  | checkLoop i hw hf =>
      refine ⟨ho, hc, ?_⟩
      rcases hvp with hv | hp
      · exact Or.inl hv
      · exact Or.inr ⟨hp.1, preStart_setWorker hp (Or.inr (Or.inl rfl))⟩
  | stopLoop i hw hf =>
      refine ⟨ho, hc, ?_⟩
      rcases hvp with hv | hp
      · exact Or.inl hv
      · exact Or.inr ⟨hp.1, preStart_setWorker hp (Or.inr (Or.inr (Or.inl rfl)))⟩
  | dequeue i q rest hw hq =>
      refine ⟨ho, hc, ?_⟩
      rcases hvp with hv | hp
      · exact Or.inl hv
      · refine Or.inr ⟨?_, ?_⟩
        · intro x hx
          exact hp.1 x (by rw [hq]; exact List.mem_cons_of_mem q hx)
        · have hqok : q = some cfg.start_url ∨ q = none :=
            hp.1 q (by rw [hq]; exact List.mem_cons_self q rest)
          refine preStart_setWorker hp ?_
          rcases hqok with rfl | rfl
          · exact Or.inr (Or.inr (Or.inr (Or.inr rfl)))
          · exact Or.inr (Or.inr (Or.inr (Or.inl rfl)))
  | gotStop i hw =>
      refine ⟨ho, hc, ?_⟩
      rcases hvp with hv | hp
      · exact Or.inl hv
      · exact Or.inr ⟨hp.1, preStart_setWorker hp (Or.inr (Or.inr (Or.inl rfl)))⟩
  | skipUrl i u hw hsf =>
      refine ⟨ho, hc, ?_⟩
      rcases hvp with hv | hp
      · exact Or.inl hv
      · exact Or.inr ⟨hp.1, preStart_setWorker hp (Or.inl rfl)⟩
  | observeBudget i u hw hsf hb =>
      refine ⟨ho, hc, ?_⟩
      rcases hvp with hv | hp
      · exact Or.inl hv
      · refine Or.inr ⟨?_, preStart_setWorker hp (Or.inl rfl)⟩
        intro x hx
        rcases List.mem_append.mp hx with hx1 | hx2
        · exact hp.1 x hx1
        · exact Or.inr (List.eq_of_mem_replicate hx2)
  | commit i u hw hsf hb =>
      refine ⟨ho, hc, ?_⟩
      rcases hvp with hv | hp
      · exact Or.inl (List.mem_cons_of_mem _ hv)
      · have hall := hp.2 _ (List.get?_mem hw)
        rcases hall with h1 | h1 | h1 | h1 | h1
        · exact absurd h1 (by simp)
        · exact absurd h1 (by simp)
        · exact absurd h1 (by simp)
        · exact absurd h1 (by simp)
        · simp only [WStatus.gotUrl.injEq, Option.some.injEq] at h1
          subst h1
          exact Or.inl (List.mem_cons_self _ _)
  | fetchFail i u hw =>
      refine ⟨ho, hc, ?_⟩
      rcases hvp with hv | hp
      · exact Or.inl hv
      · exact Or.inr ⟨hp.1, preStart_setWorker hp (Or.inl rfl)⟩
  | fetchOk i u hrefs hw =>
      refine ⟨ho, hc, ?_⟩
      rcases hvp with hv | hp
      · exact Or.inl hv
      · have hall := hp.2 _ (List.get?_mem hw)
        rcases hall with h1 | h1 | h1 | h1 | h1 <;> exact absurd h1 (by simp)
  | stepHref i u h rest writeOk hw =>
      rcases hvp with hv | hp
      · have hvis : (processHref cfg s u h writeOk).visited = s.visited :=
          (processHref_frame cfg s u h writeOk).2.1
        rcases processHref_cases cfg s u h writeOk with he | ⟨fu, hpf, he | he | he⟩
        · refine ⟨?_, ?_, Or.inl ?_⟩
          · show ∀ r ∈ (processHref cfg s u h writeOk).output, r.2 ≠ cfg.start_url
            rw [he]; exact ho
          · show cfg.start_url ∉ (processHref cfg s u h writeOk).classified
            rw [he]; exact hc
          · show cfg.start_url ∈ (processHref cfg s u h writeOk).visited
            rw [he]; exact hv
        · have hfu : fu ≠ cfg.start_url := fun heq =>
            passesFilters_not_visited hpf (heq ▸ hv)
          refine ⟨?_, ?_, Or.inl ?_⟩
          · show ∀ r ∈ (processHref cfg s u h writeOk).output, r.2 ≠ cfg.start_url
            rw [he]
            intro r hr
            rcases List.mem_append.mp hr with hr1 | hr2
            · exact ho r hr1
            · simp only [List.mem_singleton] at hr2
              subst hr2
              exact hfu
          · show cfg.start_url ∉ (processHref cfg s u h writeOk).classified
            rw [he]
            intro hmem
            rcases List.mem_append.mp hmem with hm1 | hm2
            · exact hc hm1
            · simp only [List.mem_singleton] at hm2
              exact hfu hm2.symm
          · show cfg.start_url ∈ (processHref cfg s u h writeOk).visited
            rw [hvis]; exact hv
        · have hfu : fu ≠ cfg.start_url := fun heq =>
            passesFilters_not_visited hpf (heq ▸ hv)
          refine ⟨?_, ?_, Or.inl ?_⟩
          · show ∀ r ∈ (processHref cfg s u h writeOk).output, r.2 ≠ cfg.start_url
            rw [he]; exact ho
          · show cfg.start_url ∉ (processHref cfg s u h writeOk).classified
            rw [he]
            intro hmem
            rcases List.mem_append.mp hmem with hm1 | hm2
            · exact hc hm1
            · simp only [List.mem_singleton] at hm2
              exact hfu hm2.symm
          · show cfg.start_url ∈ (processHref cfg s u h writeOk).visited
            rw [hvis]; exact hv
        · refine ⟨?_, ?_, Or.inl ?_⟩
          · show ∀ r ∈ (processHref cfg s u h writeOk).output, r.2 ≠ cfg.start_url
            rw [he]; exact ho
          · show cfg.start_url ∉ (processHref cfg s u h writeOk).classified
            rw [he]; exact hc
          · show cfg.start_url ∈ (processHref cfg s u h writeOk).visited
            rw [hvis]; exact hv
      · have hall := hp.2 _ (List.get?_mem hw)
        rcases hall with h1 | h1 | h1 | h1 | h1 <;> exact absurd h1 (by simp)
  | extractDone i u hw =>
      refine ⟨ho, hc, ?_⟩
      rcases hvp with hv | hp
      · exact Or.inl hv
      · exact Or.inr ⟨hp.1, preStart_setWorker hp (Or.inl rfl)⟩
  | orchFlood =>
      refine ⟨ho, hc, ?_⟩
      rcases hvp with hv | hp
      · exact Or.inl hv
      · refine Or.inr ⟨?_, hp.2⟩
        intro x hx
        rcases List.mem_append.mp hx with hx1 | hx2
        · exact hp.1 x hx1
        · exact Or.inr (List.eq_of_mem_replicate hx2)

/-- C10: the start URL is never classified as a product and never
recorded to the output sink in any reachable state of any run: a page's
own URL enters VisitedSet at its commit, before its links are examined,
and the seed is the first URL any worker can commit, so every examined
link equal to the seed fails the not-yet-visited filter that guards the
classify branch. -/
theorem claim_C10 : ∀ (cfg : Config) (s : CrawlState), Reach cfg s →
    (∀ r ∈ s.output, r.2 ≠ cfg.start_url) ∧ cfg.start_url ∉ s.classified := by
  intro cfg s h
  have hsafe : seedSafe cfg s := by
    induction h with
    | start =>
        refine ⟨?_, ?_, Or.inr ⟨?_, ?_⟩⟩
        · intro r hr
          simp [initState] at hr
        · simp [initState]
        · intro q hq
          simp only [initState, List.mem_singleton] at hq
          exact Or.inl hq
        · intro w hw
          have hwi : w = WStatus.idle :=
            List.eq_of_mem_replicate (by simpa [initState] using hw)
          exact Or.inl hwi
    | next hr hstep ih => exact seedSafe_step hstep ih
  exact ⟨hsafe.1, hsafe.2.1⟩

/-- Witness for C10 at the initial state of the concrete configuration. -/
theorem claim_C10_witness : cfgW.start_url ∉ (initState cfgW).classified :=
  (claim_C10 cfgW (initState cfgW) Reach.start).2

/-- Configuration of the C2 counterexample run: two pages of shop.test
both link to the same product URL. -/
def cfg2 : Config :=
  { start_url := "http://shop.test/", domain := "shop.test", pattern := "/p/",
    maxPages := 10, maxConcurrent := 1, join := joinAbs }

/-- Final state of the C2 counterexample run: pages a and b were both
crawled and each discovered the product link p/1, which was never itself
visited, so the sink holds the same record twice. -/
def c2State : CrawlState :=
  { visited := ["http://shop.test/b", "http://shop.test/a", "http://shop.test/"],
    queue := [], maxPagesReached := false, pagesCrawled := 3, productsFound := 2,
    output := [("shop.test", "http://shop.test/p/1"),
               ("shop.test", "http://shop.test/p/1")],
    failedWrites := 0,
    classified := ["http://shop.test/p/1", "http://shop.test/p/1"],
    tasksDone := 2,
    workers := [WStatus.extracting "http://shop.test/b" []] }

/-- Counterexample for C2: a reachable state of a real interleaving whose
output sink holds the identical `domain,url` record twice. The seed links
to pages a and b; both pass the filters and are enqueued; each, when
crawled, links to product p/1; since recording a product link never
inserts it into VisitedSet (src/crawler.py lines 120-128), the second
discovery passes the dedup check again and appends a second record. -/
theorem claim_C2_counterexample :
    Reach cfg2 c2State ∧
    c2State.output =
      [("shop.test", "http://shop.test/p/1"), ("shop.test", "http://shop.test/p/1")] := by
  constructor
  · have h0 : Reach cfg2 (initState cfg2) := Reach.start
    have h1 := Reach.next h0 (Step.checkLoop (initState cfg2) 0 rfl rfl)
    have h2 := Reach.next h1 (Step.dequeue _ 0 (some "http://shop.test/") [] rfl rfl)
    have h3 := Reach.next h2
      (Step.commit _ 0 "http://shop.test/" rfl (by decide) (by decide))
    have h4 := Reach.next h3
      (Step.fetchOk _ 0 "http://shop.test/"
        ["http://shop.test/a", "http://shop.test/b"] rfl)
    have h5 := Reach.next h4
      (Step.stepHref _ 0 "http://shop.test/" "http://shop.test/a"
        ["http://shop.test/b"] true rfl)
    have h6 := Reach.next h5
      (Step.stepHref _ 0 "http://shop.test/" "http://shop.test/b" [] true rfl)
    have h7 := Reach.next h6 (Step.extractDone _ 0 "http://shop.test/" rfl)
    have h8 := Reach.next h7 (Step.checkLoop _ 0 rfl rfl)
    have h9 := Reach.next h8
      (Step.dequeue _ 0 (some "http://shop.test/a") [some "http://shop.test/b"] rfl rfl)
    have h10 := Reach.next h9
      (Step.commit _ 0 "http://shop.test/a" rfl (by decide) (by decide))
    have h11 := Reach.next h10
      (Step.fetchOk _ 0 "http://shop.test/a" ["http://shop.test/p/1"] rfl)
    have h12 := Reach.next h11
      (Step.stepHref _ 0 "http://shop.test/a" "http://shop.test/p/1" [] true rfl)
    have h13 := Reach.next h12 (Step.extractDone _ 0 "http://shop.test/a" rfl)
    have h14 := Reach.next h13 (Step.checkLoop _ 0 rfl rfl)
    have h15 := Reach.next h14
      (Step.dequeue _ 0 (some "http://shop.test/b") [] rfl rfl)
    have h16 := Reach.next h15
      (Step.commit _ 0 "http://shop.test/b" rfl (by decide) (by decide))
    have h17 := Reach.next h16
      (Step.fetchOk _ 0 "http://shop.test/b" ["http://shop.test/p/1"] rfl)
    have h18 := Reach.next h17
      (Step.stepHref _ 0 "http://shop.test/b" "http://shop.test/p/1" [] true rfl)
    exact h18
  · rfl

/-- C2 as amended: each discovery of a product link whose resolved,
fragment-stripped URL passes the dedup/domain/scheme filters appends
exactly one record to the sink (when the write succeeds), but recording
does not insert the link into VisitedSet, so recording is once per
qualifying discovery, not once per URL over the whole crawl. -/
theorem claim_C2 : ∀ (cfg : Config) (s : CrawlState) (pageUrl href j : String),
    href ≠ "" → cfg.join pageUrl href = some j →
    passesFilters cfg s (stripFragment j) = true →
    is_product_url (some cfg.pattern) (stripFragment j) = true →
    (processHref cfg s pageUrl href true).output =
      s.output ++ [(cfg.domain, stripFragment j)] ∧
    (processHref cfg s pageUrl href true).visited = s.visited := by
  intro cfg s pageUrl href j hne hj hpf hprod
  have hemp : href.isEmpty = false := by
    rcases he : href.isEmpty with _ | _
    · rfl
    · exact absurd ((String.isEmpty_iff href).mp he) hne
  have hres : processHref cfg s pageUrl href true =
      { s with productsFound := s.productsFound + 1,
               classified := s.classified ++ [stripFragment j],
               output := s.output ++ [(cfg.domain, stripFragment j)] } := by
    unfold processHref
    simp only [hemp, Bool.false_eq_true, if_false, hj, hpf, hprod, if_true]
  rw [hres]
  exact ⟨rfl, rfl⟩

/-- Witness for the amended C2 at a concrete product href. -/
theorem claim_C2_witness :
    (processHref cfgW (initState cfgW) "http://shop.test/" "http://shop.test/p/7"
        true).output =
      (initState cfgW).output ++
        [(cfgW.domain, stripFragment "http://shop.test/p/7")] :=
  (claim_C2 cfgW (initState cfgW) "http://shop.test/" "http://shop.test/p/7"
    "http://shop.test/p/7" (by decide) rfl (by decide) (by decide)).1

/-- C3 as amended: a step that turns on the budgetExhausted flag is a
budget observation by a worker holding a filtered URL with
pagesCrawled >= maxPages, and it appends exactly one STOP token per
currently active (unfinished) worker task — `len(self.active_tasks)` at
src/crawler.py line 94 — which equals maxConcurrent only while no worker
task has terminated. -/
theorem claim_C3 : ∀ (cfg : Config) (s s' : CrawlState), Step cfg s s' →
    s.maxPagesReached = false → s'.maxPagesReached = true →
    s'.queue = s.queue ++ List.replicate (activeCount s) none ∧
    ∃ i u, s.workers.get? i = some (WStatus.gotUrl (some u)) ∧
      passesFilters cfg s u = true ∧ cfg.maxPages ≤ s.pagesCrawled := by
  intro cfg s s' hstep hf ht
  cases hstep with
  | observeBudget i u hw hs hb => exact ⟨rfl, i, u, hw, hs, hb⟩
  | stepHref i u h rest writeOk hw =>
      have hflag : (processHref cfg s u h writeOk).maxPagesReached = true := ht
      rw [(processHref_frame cfg s u h writeOk).2.2.1, hf] at hflag
      exact Bool.noConfusion hflag
  | checkLoop i hw hf2 =>
      have hflag : s.maxPagesReached = true := ht
      rw [hf] at hflag
      exact Bool.noConfusion hflag
  | stopLoop i hw hf2 =>
      have hflag : s.maxPagesReached = true := ht
      rw [hf] at hflag
      exact Bool.noConfusion hflag
  | dequeue i q rest hw hq =>
      have hflag : s.maxPagesReached = true := ht
      rw [hf] at hflag
      exact Bool.noConfusion hflag
  | gotStop i hw =>
      have hflag : s.maxPagesReached = true := ht
      rw [hf] at hflag
      exact Bool.noConfusion hflag
  | skipUrl i u hw hs =>
      have hflag : s.maxPagesReached = true := ht
      rw [hf] at hflag
      exact Bool.noConfusion hflag
  | commit i u hw hs hb =>
      have hflag : s.maxPagesReached = true := ht
      rw [hf] at hflag
      exact Bool.noConfusion hflag
  | fetchFail i u hw =>
      have hflag : s.maxPagesReached = true := ht
      rw [hf] at hflag
      exact Bool.noConfusion hflag
  | fetchOk i u hrefs hw =>
      have hflag : s.maxPagesReached = true := ht
      rw [hf] at hflag
      exact Bool.noConfusion hflag
  | extractDone i u hw =>
      have hflag : s.maxPagesReached = true := ht
      rw [hf] at hflag
      exact Bool.noConfusion hflag
  | orchFlood =>
      have hflag : s.maxPagesReached = true := ht
      rw [hf] at hflag
      exact Bool.noConfusion hflag

/-- Configuration of the C3 counterexample run: three workers, budget of
two pages. -/
def cfg3 : Config :=
  { start_url := "http://shop.test/", domain := "shop.test", pattern := "/p/",
    maxPages := 2, maxConcurrent := 3, join := joinAbs }

/-- State of the C3 counterexample run just before the second budget
observation: the flag is already set, worker 1 has terminated, and
worker 2 holds the still-unvisited URL c with the budget exhausted. -/
def c3Pre : CrawlState :=
  { visited := ["http://shop.test/a", "http://shop.test/"],
    queue := [none, none, none], maxPagesReached := true, pagesCrawled := 2,
    productsFound := 0, output := [], failedWrites := 0, classified := [],
    tasksDone := 3,
    workers := [WStatus.idle, WStatus.finished,
                WStatus.gotUrl (some "http://shop.test/c")] }

/-- State after worker 2 observes budget exhaustion in `c3Pre`: only two
STOP tokens are appended because only two worker tasks are still active. -/
def c3Post : CrawlState :=
  { visited := ["http://shop.test/a", "http://shop.test/"],
    queue := [none, none, none, none, none], maxPagesReached := true,
    pagesCrawled := 2, productsFound := 0, output := [], failedWrites := 0,
    classified := [], tasksDone := 4,
    workers := [WStatus.idle, WStatus.finished, WStatus.idle] }

/-- Counterexample for C3: in a real interleaving with maxConcurrent = 3,
a worker that observes budget exhaustion (holding an admissible URL with
pagesCrawled >= maxPages) enqueues only 2 STOP tokens, because a worker
task had already terminated and the flood is sized by the shrinking
active-task count, not by maxConcurrent. -/
theorem claim_C3_counterexample :
    Reach cfg3 c3Pre ∧ Step cfg3 c3Pre c3Post ∧
    c3Pre.workers.get? 2 = some (WStatus.gotUrl (some "http://shop.test/c")) ∧
    cfg3.maxPages ≤ c3Pre.pagesCrawled ∧
    c3Post.queue = c3Pre.queue ++ List.replicate 2 none ∧
    cfg3.maxConcurrent = 3 := by
  refine ⟨?_, ?_, rfl, by decide, rfl, rfl⟩
  · have h0 : Reach cfg3 (initState cfg3) := Reach.start
    have h1 := Reach.next h0 (Step.checkLoop (initState cfg3) 0 rfl rfl)
    have h2 := Reach.next h1 (Step.dequeue _ 0 (some "http://shop.test/") [] rfl rfl)
    have h3 := Reach.next h2
      (Step.commit _ 0 "http://shop.test/" rfl (by decide) (by decide))
    have h4 := Reach.next h3
      (Step.fetchOk _ 0 "http://shop.test/"
        ["http://shop.test/a", "http://shop.test/b", "http://shop.test/c"] rfl)
    have h5 := Reach.next h4
      (Step.stepHref _ 0 "http://shop.test/" "http://shop.test/a"
        ["http://shop.test/b", "http://shop.test/c"] true rfl)
    have h6 := Reach.next h5
      (Step.stepHref _ 0 "http://shop.test/" "http://shop.test/b"
        ["http://shop.test/c"] true rfl)
    have h7 := Reach.next h6
      (Step.stepHref _ 0 "http://shop.test/" "http://shop.test/c" [] true rfl)
    have h8 := Reach.next h7 (Step.extractDone _ 0 "http://shop.test/" rfl)
    have h9 := Reach.next h8 (Step.checkLoop _ 2 rfl rfl)
    have h10 := Reach.next h9 (Step.checkLoop _ 0 rfl rfl)
    have h11 := Reach.next h10
      (Step.dequeue _ 0 (some "http://shop.test/a")
        [some "http://shop.test/b", some "http://shop.test/c"] rfl rfl)
    have h12 := Reach.next h11
      (Step.commit _ 0 "http://shop.test/a" rfl (by decide) (by decide))
    have h13 := Reach.next h12 (Step.fetchFail _ 0 "http://shop.test/a" rfl)
    have h14 := Reach.next h13 (Step.checkLoop _ 1 rfl rfl)
    have h15 := Reach.next h14
      (Step.dequeue _ 1 (some "http://shop.test/b") [some "http://shop.test/c"] rfl rfl)
    have h16 := Reach.next h15
      (Step.observeBudget _ 1 "http://shop.test/b" rfl (by decide) (by decide))
    have h17 := Reach.next h16 (Step.stopLoop _ 1 rfl rfl)
    have h18 := Reach.next h17
      (Step.dequeue _ 2 (some "http://shop.test/c") [none, none, none] rfl rfl)
    exact h18
  · exact Step.observeBudget c3Pre 2 "http://shop.test/c" rfl (by decide) (by decide)

/-- State of the C3 witness: one worker, budget exhausted, a fresh URL
held. -/
def s3w : CrawlState :=
  { visited := ["http://shop.test/", "http://shop.test/x"], queue := [],
    maxPagesReached := false, pagesCrawled := 2, productsFound := 0, output := [],
    failedWrites := 0, classified := [], tasksDone := 0,
    workers := [WStatus.gotUrl (some "http://shop.test/a")] }

/-- State after the budget observation in `s3w`. -/
def s3wPost : CrawlState :=
  { visited := ["http://shop.test/", "http://shop.test/x"], queue := [none],
    maxPagesReached := true, pagesCrawled := 2, productsFound := 0, output := [],
    failedWrites := 0, classified := [], tasksDone := 1,
    workers := [WStatus.idle] }

/-- Witness for the amended C3 at a concrete budget-observation step. -/
theorem claim_C3_witness :
    s3wPost.queue = s3w.queue ++ List.replicate (activeCount s3w) none :=
  (claim_C3 cfgW s3w s3wPost
    (Step.observeBudget s3w 0 "http://shop.test/a" rfl (by decide) (by decide))
    rfl rfl).1

/-- C4: isProductUrl is literal, case-sensitive substring containment of
the loaded pattern anywhere in the full URL string (so a URL matches
exactly when the pattern characters occur contiguously in it), and it
returns false on every URL when no pattern is loaded, where Python
truthiness also treats an empty stored pattern as not loaded. -/
theorem claim_C4 :
    (∀ url : String, is_product_url none url = false) ∧
    (∀ (p url : String), p ≠ "" →
      (is_product_url (some p) url = true ↔ p.data <:+: url.data)) ∧
    (∀ url : String, is_product_url (some "") url = false) := by
  refine ⟨fun url => rfl, ?_, fun url => rfl⟩
  intro p url hp
  have hpe : p.isEmpty = false := by
    rcases he : p.isEmpty with _ | _
    · rfl
    · exact absurd ((String.isEmpty_iff p).mp he) hp
  show (if p.isEmpty = true then false else containsSub p.data url.data) = true ↔ _
  rw [hpe]
  simp only [Bool.false_eq_true, if_false]
  exact containsSub_iff p.data url.data

/-- Witness for C4 on the pattern `/p/` and a product URL. -/
theorem claim_C4_witness :
    is_product_url (some "/p/") "http://shop.test/p/9" = true ↔
      ("/p/" : String).data <:+: ("http://shop.test/p/9" : String).data :=
  claim_C4.2.1 "/p/" "http://shop.test/p/9" (by decide)

/-- C5: isSameDomain holds exactly when the URL's host parses and equals
the registered domain, or equals it with a `www.` prefix added, or the
registered domain equals the host with a `www.` prefix added; an
unparsable host yields false and the function is total (the ValueError
is caught inside it). -/
theorem claim_C5 : ∀ (domain url : String),
    is_same_domain domain url = true ↔
      ∃ h, netlocOf url = some h ∧
        (h = domain ∨ h = "www." ++ domain ∨ domain = "www." ++ h) := by
  intro domain url
  unfold is_same_domain
  cases hn : netlocOf url with
  | none => simp
  | some nl =>
      simp only [Bool.or_eq_true, beq_iff_eq, Option.some.injEq]
      constructor
      · rintro ((h1 | h1) | h1)
        · exact ⟨nl, rfl, Or.inl h1⟩
        · exact ⟨nl, rfl, Or.inr (Or.inl h1)⟩
        · exact ⟨nl, rfl, Or.inr (Or.inr h1.symm)⟩
      · rintro ⟨h2, heq, h3 | h3 | h3⟩
        · cases heq; exact Or.inl (Or.inl h3)
        · cases heq; exact Or.inl (Or.inr h3)
        · cases heq; exact Or.inr h3.symm

/-- A resolved URL that is already visited, off-domain, or not http
fails the admission filter. -/
theorem passesFilters_false {cfg : Config} {s : CrawlState} {u : String}
    (h : u ∈ s.visited ∨ is_same_domain cfg.domain u = false ∨
      strStartsWith u "http" = false) :
    passesFilters cfg s u = false := by
  unfold passesFilters
  rcases h with h1 | h1 | h1
  · have hc : s.visited.contains u = true := List.elem_eq_true_of_mem h1
    simp [hc]
    intro hnot
    exact absurd h1 hnot
  · simp [h1]
  · simp [h1]

/-- C6: each href is resolved against the current page URL and
fragment-stripped; an empty or unresolvable href is skipped; a resolved
URL that is already visited, off-domain, or not http leaves the state
unchanged; a surviving non-product link is enqueued exactly when the
shutdown flag is unset and pagesCrawled < maxPages at that moment. -/
theorem claim_C6 : ∀ (cfg : Config) (s : CrawlState) (pageUrl href : String)
    (writeOk : Bool),
    (href = "" → processHref cfg s pageUrl href writeOk = s) ∧
    (cfg.join pageUrl href = none → processHref cfg s pageUrl href writeOk = s) ∧
    (∀ j, href ≠ "" → cfg.join pageUrl href = some j →
      ((stripFragment j ∈ s.visited ∨
          is_same_domain cfg.domain (stripFragment j) = false ∨
          strStartsWith (stripFragment j) "http" = false) →
        processHref cfg s pageUrl href writeOk = s) ∧
      (passesFilters cfg s (stripFragment j) = true →
        is_product_url (some cfg.pattern) (stripFragment j) = false →
        processHref cfg s pageUrl href writeOk =
          (if s.maxPagesReached = false ∧ s.pagesCrawled < cfg.maxPages
           then { s with queue := s.queue ++ [some (stripFragment j)] }
           else s))) := by
  intro cfg s pageUrl href writeOk
  refine ⟨?_, ?_, ?_⟩
  · rintro rfl
    rfl
  · intro hj
    unfold processHref
    rw [hj]
    split <;> rfl
  · intro j hne hj
    have hemp : href.isEmpty = false := by
      rcases he : href.isEmpty with _ | _
      · rfl
      · exact absurd ((String.isEmpty_iff href).mp he) hne
    constructor
    · intro hskip
      have hpf := passesFilters_false hskip
      unfold processHref
      simp only [hemp, Bool.false_eq_true, if_false, hj, hpf]
    · intro hpf hnp
      unfold processHref
      simp only [hemp, Bool.false_eq_true, if_false, hj, hpf, if_true, hnp]
      rcases hmp : s.maxPagesReached with _ | _ <;>
        by_cases hlt : s.pagesCrawled < cfg.maxPages <;>
        simp [hmp, hlt]

/-- Witness for C6: a fresh non-product link below budget is enqueued. -/
theorem claim_C6_witness :
    processHref cfgW (initState cfgW) "http://shop.test/" "http://shop.test/x" true =
      (if (initState cfgW).maxPagesReached = false ∧
          (initState cfgW).pagesCrawled < cfgW.maxPages
       then { initState cfgW with
              queue := (initState cfgW).queue ++
                [some (stripFragment "http://shop.test/x")] }
       else initState cfgW) :=
  ((claim_C6 cfgW (initState cfgW) "http://shop.test/" "http://shop.test/x" true).2.2
    "http://shop.test/x" (by decide) rfl).2 (by decide) (by decide)

/-- Result of ProductCrawler.__init__ (src/crawler.py lines 14-52) as the
crawl guard observes it: the parsed domain is None when urlparse fails or
yields an empty netloc (both raise the ValueError caught at line 33, which
also prevents the pattern load), and the pattern is whatever
patterns.get(domain) returned. -/
structure CrawlerInit where
  domain : Option String
  product_pattern : Option String

/-- Model of dict.get on the patterns.json mapping. -/
def lookupPat (patterns : List (String × String)) (d : String) : Option String :=
  (patterns.find? (fun kv => kv.1 == d)).map (fun kv => kv.2)

/-- Construction of the crawler from the start URL and the patterns
mapping (src/crawler.py lines 26-52). -/
def initCrawler (start_url : String) (patterns : List (String × String)) : CrawlerInit :=
  match netlocOf start_url with
  | none => { domain := none, product_pattern := none }
  | some d =>
      if d = "" then { domain := none, product_pattern := none }
      else { domain := some d, product_pattern := lookupPat patterns d }

/-- The fatal-exit guard at src/crawler.py lines 160-162, mirrored at
src/main.py line 28: the crawl starts only when both the domain and the
product pattern are truthy in Python's sense. -/
def crawlGuard (c : CrawlerInit) : Bool :=
  (match c.domain with
   | some d => !d.isEmpty
   | none => false) &&
  (match c.product_pattern with
   | some p => !p.isEmpty
   | none => false)

/-- ProductCrawler.crawl at the level C7 observes: when the guard fails,
the method logs and returns 0 at once, so no run happens — zero fetches
and no records appended; otherwise the crawl runs, abstracted as an
arbitrary outcome (final pagesCrawled, records appended this run). -/
def crawl (c : CrawlerInit) (outcome : Nat × List (String × String)) :
    Nat × List (String × String) :=
  if crawlGuard c then outcome else (0, [])

/-- C7: when the start URL's domain cannot be parsed (or is empty), or no
pattern is registered for the parsed domain, the crawl call returns 0
having performed no fetches and appended nothing, for every possible
run outcome. -/
theorem claim_C7 : ∀ (start_url : String) (patterns : List (String × String))
    (outcome : Nat × List (String × String)),
    (netlocOf start_url = none ∨ netlocOf start_url = some "" ∨
      (∀ d, netlocOf start_url = some d → lookupPat patterns d = none)) →
    crawl (initCrawler start_url patterns) outcome = (0, []) := by
  intro start_url patterns outcome h
  unfold crawl
  suffices hg : crawlGuard (initCrawler start_url patterns) = false by
    simp [hg]
  unfold initCrawler
  rcases h with h1 | h1 | h1
  · rw [h1]
    rfl
  · rw [h1]
    simp [crawlGuard]
  · cases hn : netlocOf start_url with
    | none => rfl
    | some d =>
        by_cases hd : d = ""
        · simp [hd, crawlGuard]
        · have hlp := h1 d hn
          simp [hd, crawlGuard, hlp]

/-- Witness for C7: a seed whose domain has no entry in the patterns
mapping yields a zero-page crawl with no output mutation. -/
theorem claim_C7_witness :
    crawl (initCrawler "http://nopattern.test/" [("shop.test", "/p/")])
        (7, [("a", "b")]) = (0, []) :=
  claim_C7 "http://nopattern.test/" [("shop.test", "/p/")] (7, [("a", "b")])
    (Or.inr (Or.inr (fun d hd => by
      rw [show netlocOf "http://nopattern.test/" = some "nopattern.test" from rfl] at hd
      cases hd
      rfl)))

/-- C8: a worker holding an admissible URL below budget commits it (the
URL enters VisitedSet and pagesCrawled is incremented before the fetch),
and when the fetch then times out or errors, the item is still marked
complete, no link is extracted (output, queue, productsFound and the
classified ghost list are untouched by the attempt), and the worker
returns to the top of its loop for the next frontier item. -/
theorem claim_C8 : ∀ (cfg : Config) (s : CrawlState) (i : Nat) (u : String),
    s.workers.get? i = some (WStatus.gotUrl (some u)) →
    passesFilters cfg s u = true → s.pagesCrawled < cfg.maxPages →
    ∃ s1 s2, Step cfg s s1 ∧ Step cfg s1 s2 ∧
      u ∈ s2.visited ∧ s2.pagesCrawled = s.pagesCrawled + 1 ∧
      s2.tasksDone = s.tasksDone + 1 ∧ s2.output = s.output ∧
      s2.queue = s.queue ∧ s2.productsFound = s.productsFound ∧
      s2.classified = s.classified ∧
      s2.workers = s.workers.set i WStatus.idle := by
  intro cfg s i u hw hpf hb
  have hlen : i < s.workers.length := by
    rcases List.get?_eq_some.mp hw with ⟨h, _⟩
    exact h
  have hset : (s.workers.set i (WStatus.fetching u)).get? i =
      some (WStatus.fetching u) := by
    rw [List.get?_eq_getElem?]
    exact List.getElem?_set_self hlen
  refine ⟨_, _, Step.commit s i u hw hpf hb, Step.fetchFail _ i u hset,
    List.mem_cons_self _ _, rfl, rfl, rfl, rfl, rfl, rfl, ?_⟩
  exact List.set_set _ _ _ _

/-- Concrete pre-state for the C8 witness: one worker holds a fresh URL. -/
def s8 : CrawlState :=
  { visited := [], queue := [], maxPagesReached := false, pagesCrawled := 0,
    productsFound := 0, output := [], failedWrites := 0, classified := [],
    tasksDone := 0, workers := [WStatus.gotUrl (some "http://shop.test/a")] }

/-- Witness for C8 at the concrete pre-state. -/
theorem claim_C8_witness :
    ∃ s1 s2, Step cfgW s8 s1 ∧ Step cfgW s1 s2 ∧
      "http://shop.test/a" ∈ s2.visited ∧ s2.pagesCrawled = s8.pagesCrawled + 1 ∧
      s2.tasksDone = s8.tasksDone + 1 ∧ s2.output = s8.output ∧
      s2.queue = s8.queue ∧ s2.productsFound = s8.productsFound ∧
      s2.classified = s8.classified ∧
      s2.workers = s8.workers.set 0 WStatus.idle :=
  claim_C8 cfgW s8 0 "http://shop.test/a" rfl (by decide) (by decide)
